import Mathlib

/-!
Verification development for the `nodeedge` repository (hannal/edgeorm).

Each Python construct the claims touch is shallow-embedded as an executable
Lean definition translated from the source files under `src/nodeedge/`.
Machine-level concerns absent from Python (arbitrary-precision ints) are kept:
Python `int` is `Int`/`Nat`, Python `//` and `%` on `int` are `Int.fdiv` /
`Int.emod` (floor semantics), fallible code returns `Except PyExc _`.
-/

set_option maxRecDepth 8000
set_option exponentiation.threshold 2000

/-- Python exception classes relevant to the modelled code.  `TypeError`,
`ValueError`, `AttributeError` are builtins; `InvalidPathError` comes from
`src/nodeedge/exceptions.py`.  `configurationError` is Modelled from the spec:
the spec's error-condition section names a `ConfigurationError` class, but the
repository's `exceptions.py` defines no such class; the constructor exists here
only so that the spec's claim about it can be stated. -/
inductive PyExc where
  | typeError
  | valueError
  | attributeError
  | invalidPathError
  | overflowError
  | configurationError
  deriving DecidableEq

deriving instance DecidableEq for Except

/-- `EnumOperand` from `src/nodeedge/query/_lookup.py`: members `AND = "and"`,
`OR = "or"`. -/
inductive EnumOperand where
  | AND
  | OR
  deriving DecidableEq

/-- `CompositedDirectionType` from `src/nodeedge/mixins.py`:
`Literal["left", "right", ""]`; `empty` stands for `""`. -/
inductive CompositedDirection where
  | left
  | right
  | empty
  deriving DecidableEq

/-- A `Compositable` value (`src/nodeedge/mixins.py`): either a
`CompositableItem` leaf carrying its own payload `a : α`, or a `Composition`
node with `__left__`, `__operand__`, `__right__`.  `create_composition` only
ever stores both children, so a composition always has both. -/
inductive Compositable (α : Type) where
  | item (a : α)
  | composition (left : Compositable α) (operand : EnumOperand) (right : Compositable α)
  deriving DecidableEq

/-- `getattr(item, "__left__", None)`: only `Composition` nodes carry a left
child; items yield `None`. -/
def Compositable.left : Compositable α → Option (Compositable α)
  | .composition l _ _ => some l
  | .item _ => none

/-- `getattr(item, "__right__", None)`. -/
def Compositable.right : Compositable α → Option (Compositable α)
  | .composition _ _ r => some r
  | .item _ => none

/-- `.operand` property: a `Composition` stores the operand given at creation;
a `CompositableItem` has the class default `__operand__ = EnumOperand.AND`. -/
def Compositable.operand : Compositable α → EnumOperand
  | .item _ => .AND
  | .composition _ op _ => op

/-- `isinstance(x, Composition)`. -/
def Compositable.is_composition : Compositable α → Bool
  | .composition _ _ _ => true
  | .item _ => false

/-- `Composition.create_composition(left, operand, right)`
(`src/nodeedge/mixins.py` lines 383-392): `check_composition_args` always
passes here because both children are `Compositable` by type and
`EnumOperand.find_member` maps an `EnumOperand` member to itself; a fresh
node is then populated with `__left__`, `__right__`, `__operand__`. -/
def create_composition (left : Compositable α) (operand : EnumOperand)
    (right : Compositable α) : Compositable α :=
  .composition left operand right

/-- `CompositableItem.__and__` (`src/nodeedge/mixins.py` lines 328-330):
`self.__compositable_class__.create_composition(self, EnumOperand.AND, other)`. -/
def item_and (self other : Compositable α) : Compositable α :=
  create_composition self .AND other

/-- `CompositableItem.__or__` (`src/nodeedge/mixins.py` lines 332-334). -/
def item_or (self other : Compositable α) : Compositable α :=
  create_composition self .OR other

/-- One listener callback invocation recorded during `map_composition`:
`on_begin_wrap(depth, item)`, `on_composite(item, operand, direction, depth)`
or `on_finish_wrap(depth, item)`. -/
inductive CompositionEvent (α : Type) where
  | on_begin_wrap (depth : Int) (item : Compositable α)
  | on_composite (item : Option (Compositable α)) (operand : Option EnumOperand)
      (direction : CompositedDirection) (depth : Int)
  | on_finish_wrap (depth : Int) (item : Compositable α)
  deriving DecidableEq

/-- The `depth` argument the callback received. -/
def CompositionEvent.event_depth : CompositionEvent α → Int
  | .on_begin_wrap d _ => d
  | .on_composite _ _ _ d => d
  | .on_finish_wrap _ _ => 0

/-- The inner `_traverse(item, direction, operand, each_depth)` of
`Composition.map_composition` (`src/nodeedge/mixins.py` lines 425-456),
with the `nonlocal depth` cell threaded explicitly as the last argument and
the listener callbacks recorded as a list of events.  The `if not item:
return` guard of the source never fires because compositions built by
`create_composition` always carry both children, so children are passed
directly.  `each_depth = abs(each_depth)` is `Int.natAbs`. -/
def traverse_composition :
    Compositable α → CompositedDirection → Option EnumOperand → Int → Int →
      List (CompositionEvent α) × Int
  | .item a, direction, operand, each_depth0, depth =>
      let each_depth : Int := each_depth0.natAbs
      let injected :=
        if operand.isSome ∧ direction = .right then
          [CompositionEvent.on_composite none operand direction each_depth]
        else []
      (injected ++ [CompositionEvent.on_composite (some (.item a)) none direction each_depth],
        depth)
  | .composition l op r, direction, operand, each_depth0, depth =>
      let each_depth : Int := each_depth0.natAbs
      let injected :=
        if direction = .right then
          [CompositionEvent.on_composite none operand direction each_depth]
        else []
      let left_depth := depth - (if l.is_composition then 1 else 0)
      let right_depth := depth - (if r.is_composition then 1 else 0)
      let depth1 := depth - 1
      let resL := traverse_composition l .left (some op) left_depth depth1
      let resR := traverse_composition r .right (some op) right_depth resL.2
      (injected
          ++ [CompositionEvent.on_begin_wrap each_depth (.composition l op r)]
          ++ resL.1 ++ resR.1
          ++ [CompositionEvent.on_finish_wrap each_depth (.composition l op r)],
        resR.2)

/-- `Composition.map_composition` with a recording listener: the initial call
is `_traverse(self)` with `direction=""`, `operand=None`, `each_depth=0` and
the `nonlocal depth` starting at `0`. -/
def map_composition (c : Compositable α) : List (CompositionEvent α) :=
  (traverse_composition c .empty none 0 0).1

/-- One token appended by the recording listener of the repository's test
fixture (`src/tests/test_mixins.py`, `composition_listener`): `on_begin_wrap`
appends `"("`, `on_finish_wrap` appends `")"`, `on_composite` appends the
visited item when present, else the operand when present. -/
inductive CompositionToken (α : Type) where
  | begin_wrap_token
  | finish_wrap_token
  | item_token (it : Compositable α)
  | operand_token (op : EnumOperand)
  deriving DecidableEq

/-- What the fixture listener appends for a single callback. -/
def token_of_event : CompositionEvent α → Option (CompositionToken α)
  | .on_begin_wrap _ _ => some .begin_wrap_token
  | .on_finish_wrap _ _ => some .finish_wrap_token
  | .on_composite (some it) _ _ _ => some (.item_token it)
  | .on_composite none (some op) _ _ => some (.operand_token op)
  | .on_composite none none _ _ => none

/-- The token list a token-appending listener accumulates. -/
def composition_tokens (c : Compositable α) : List (CompositionToken α) :=
  (map_composition c).filterMap token_of_event

/-- C1: for a composite node built as `a & b` from two leaf composables,
`map_composition` fires `on_begin_wrap(0, node)`, `on_composite(a, None,
"left", 0)`, the injected `on_composite(None, AND, "right", 0)` right before
the right child, `on_composite(b, None, "right", 0)`, `on_finish_wrap(0,
node)`, in that order; a token-appending listener therefore collects
`["(", a, AND, b, ")"]`, and every callback receives a non-negative depth. -/
theorem map_composition_simple_and (α : Type) (a b : α) :
    map_composition (item_and (.item a) (.item b)) =
      [ .on_begin_wrap 0 (.composition (.item a) .AND (.item b)),
        .on_composite (some (.item a)) none .left 0,
        .on_composite none (some .AND) .right 0,
        .on_composite (some (.item b)) none .right 0,
        .on_finish_wrap 0 (.composition (.item a) .AND (.item b)) ] ∧
    composition_tokens (item_and (.item a) (.item b)) =
      [ .begin_wrap_token, .item_token (.item a), .operand_token .AND,
        .item_token (.item b), .finish_wrap_token ] ∧
    ((map_composition (item_and (.item a) (.item b))).all
      (fun e => (0 : Int) ≤ e.event_depth)) = true := by
  refine ⟨rfl, rfl, rfl⟩

theorem composition_ne_left_child :
    ∀ (l : Compositable α) (op : EnumOperand) (r : Compositable α),
      Compositable.composition l op r ≠ l := by
  intro l
  induction l with
  | item a => intro op r h; exact Compositable.noConfusion h
  | composition l1 o1 r1 ihl ihr =>
      intro op r h
      injection h with h1 h2 h3
      exact ihl o1 r1 h1

theorem composition_ne_right_child :
    ∀ (r l : Compositable α) (op : EnumOperand),
      Compositable.composition l op r ≠ r := by
  intro r
  induction r with
  | item a => intro l op h; exact Compositable.noConfusion h
  | composition l1 o1 r1 ihl ihr =>
      intro l op h
      injection h with h1 h2 h3
      exact ihr l1 o1 h3

/-- C2: `a | b & (c | d)` (Python precedence: `a | (b & (c | d))`, built
through `CompositableItem.__or__`/`__and__` and `create_composition`) yields
a tree with `.left == a`, root operand `OR`, `.right.left == b` with operand
`AND`, `.right.right.left == c`, `.right.right.right == d` with operand `OR`;
and `create_composition` stores its operands unchanged as the children of a
new node that is distinct from either operand (no operand is mutated). -/
theorem composition_tree_shape (α : Type) (a b c d : α) :
    (item_or (.item a) (item_and (.item b) (item_or (.item c) (.item d)))).left
        = some (.item a) ∧
    (item_or (.item a) (item_and (.item b) (item_or (.item c) (.item d)))).operand
        = .OR ∧
    (item_or (.item a) (item_and (.item b) (item_or (.item c) (.item d)))).right
        = some (item_and (.item b) (item_or (.item c) (.item d))) ∧
    (item_and (.item b) (item_or (.item c) (.item d))).left = some (.item b) ∧
    (item_and (.item b) (item_or (.item c) (.item d))).operand = .AND ∧
    (item_and (.item b) (item_or (.item c) (.item d))).right
        = some (item_or (.item c) (.item d)) ∧
    (item_or (.item c) (.item d)).left = some (.item c) ∧
    (item_or (.item c) (.item d)).right = some (.item d) ∧
    (item_or (.item c) (.item d)).operand = .OR ∧
    (∀ (l : Compositable α) (op : EnumOperand) (r : Compositable α),
      (create_composition l op r).left = some l ∧
      (create_composition l op r).right = some r ∧
      create_composition l op r ≠ l ∧
      create_composition l op r ≠ r) := by
  refine ⟨rfl, rfl, rfl, rfl, rfl, rfl, rfl, rfl, rfl, ?_⟩
  intro l op r
  exact ⟨rfl, rfl, composition_ne_left_child l op r, composition_ne_right_child r l op⟩

/-! ## Cloneable (`src/nodeedge/mixins.py` lines 49-167)

A Python object is modelled as a total attribute store `String → α` (every
attribute read by `_clone` is defined, via class-level defaults), and object
identity as an index into a heap `List (PyObj α)`: constructing a new object
(`self.__class__(*init_args, **init_kwargs)`, or the deep-copying
`__cloning_operator__` used by `model.fields.Field`) appends a fresh entry. -/

def PyObj (α : Type) : Type := String → α

/-- `setattr(obj, name, v)` as a functional update. -/
def set_attr (o : PyObj α) (name : String) (v : α) : PyObj α :=
  fun m => if m = name then v else o m

/-- `name in d` / `d[name]` for the `args` / `kwargs` / `attrs` dicts. -/
def dict_lookup (name : String) : List (String × α) → Option α
  | [] => none
  | (k, v) :: tl => if k = name then some v else dict_lookup name tl

/-- The class-level data `_clone` consults: `__init_args__`,
`__init_kwargs__`, `__cloning_attrs__` (as the normalized name collection),
`__cloning_operator__`, and the constructor `cls(*init_args, **init_kwargs)`
(which yields a fresh object whose attributes are some function of the
arguments). -/
structure CloneableClass (α : Type) where
  init_args : List String
  init_kwargs : List String
  cloning_attrs : List String
  cloning_operator : Option (PyObj α → PyObj α)
  construct : List α → List (String × α) → PyObj α

/-- `Cloneable.__skip_arg_names`. -/
def skip_arg_names : List String := ["__pydantic_self__"]

/-- First loop of `_clone` (lines 83-89): positional constructor arguments,
taken from `args` when present, else from `getattr(self, name)`. -/
def build_init_args (cls : CloneableClass α) (self : PyObj α)
    (args : List (String × α)) : List α :=
  (cls.init_args.filter (fun name => !(skip_arg_names.contains name))).map
    (fun name => match dict_lookup name args with
      | some v => v
      | none => self name)

/-- Second loop of `_clone` (lines 91-99): keyword constructor arguments;
names found in `args` are skipped, values come from `kwargs` when present,
else from `getattr(self, name)`. -/
def build_init_kwargs (cls : CloneableClass α) (self : PyObj α)
    (args kwargs : List (String × α)) : List (String × α) :=
  (cls.init_kwargs.filter
      (fun name => !(skip_arg_names.contains name) && (dict_lookup name args).isNone)).map
    (fun name => (name, match dict_lookup name kwargs with
      | some v => v
      | none => self name))

/-- Third loop of `_clone` (lines 106-109): every carry-over attribute in
`__cloning_attrs__` not named in `attrs` is copied from `self` onto `obj`. -/
def apply_cloning_attrs (self obj : PyObj α) (cloning_attrs : List String)
    (attrs : List (String × α)) : PyObj α :=
  cloning_attrs.foldl
    (fun o name =>
      if (dict_lookup name attrs).isSome then o else set_attr o name (self name))
    obj

/-- Last loop of `_clone` (lines 111-112): the explicit attribute overrides
are applied, after the carry-over copies. -/
def apply_attr_overrides (obj : PyObj α) (attrs : List (String × α)) : PyObj α :=
  attrs.foldl (fun o p => set_attr o p.1 p.2) obj

/-- The attribute store of the object `_clone` returns: the freshly built
object (`__cloning_operator__(self)` when the operator is set, else the
constructor call), then carry-over copies, then overrides. -/
def clone_build (cls : CloneableClass α) (self : PyObj α)
    (args kwargs attrs : List (String × α)) : PyObj α :=
  let obj0 :=
    match cls.cloning_operator with
    | some f => f self
    | none => cls.construct (build_init_args cls self args)
        (build_init_kwargs cls self args kwargs)
  apply_attr_overrides (apply_cloning_attrs self obj0 cls.cloning_attrs attrs) attrs

/-- `Cloneable._clone` on the heap: the new object is allocated at a fresh
index (both the constructor and the deep-copying cloning operator of
`model.fields.Field` create a new object), and no existing entry is written. -/
def clone_alloc (heap : List (PyObj α)) (cls : CloneableClass α) (self : PyObj α)
    (args kwargs attrs : List (String × α)) : List (PyObj α) × Nat :=
  (heap ++ [clone_build cls self args kwargs attrs], heap.length)

theorem dict_lookup_eq_none_of_not_mem {name : String} {attrs : List (String × α)}
    (h : name ∉ attrs.map Prod.fst) : dict_lookup name attrs = none := by
  induction attrs with
  | nil => rfl
  | cons hd tl ih =>
      rw [List.map_cons, List.mem_cons] at h
      push_neg at h
      have hk : ¬ hd.1 = name := fun hk => h.1 hk.symm
      show (if hd.1 = name then some hd.2 else dict_lookup name tl) = none
      rw [if_neg hk]
      exact ih h.2

theorem apply_attr_overrides_not_mem {attrs : List (String × α)} {name : String}
    (obj : PyObj α) (h : dict_lookup name attrs = none) :
    apply_attr_overrides obj attrs name = obj name := by
  induction attrs generalizing obj with
  | nil => rfl
  | cons hd tl ih =>
      have h' : (if hd.1 = name then some hd.2 else dict_lookup name tl) = none := h
      by_cases hk : hd.1 = name
      · rw [if_pos hk] at h'; cases h'
      · rw [if_neg hk] at h'
        calc apply_attr_overrides obj (hd :: tl) name
            = apply_attr_overrides (set_attr obj hd.1 hd.2) tl name := rfl
          _ = set_attr obj hd.1 hd.2 name := ih _ h'
          _ = obj name := by
              unfold set_attr
              rw [if_neg (fun hx : name = hd.1 => hk hx.symm)]

theorem apply_attr_overrides_lookup {attrs : List (String × α)} {name : String} {v : α}
    (obj : PyObj α) (hnd : (attrs.map Prod.fst).Nodup)
    (h : dict_lookup name attrs = some v) :
    apply_attr_overrides obj attrs name = v := by
  induction attrs generalizing obj with
  | nil => cases h
  | cons hd tl ih =>
      rw [List.map_cons, List.nodup_cons] at hnd
      have h' : (if hd.1 = name then some hd.2 else dict_lookup name tl) = some v := h
      by_cases hk : hd.1 = name
      · rw [if_pos hk] at h'
        have hv : hd.2 = v := Option.some.inj h'
        have hnm : dict_lookup name tl = none :=
          dict_lookup_eq_none_of_not_mem (hk ▸ hnd.1)
        calc apply_attr_overrides obj (hd :: tl) name
            = apply_attr_overrides (set_attr obj hd.1 hd.2) tl name := rfl
          _ = set_attr obj hd.1 hd.2 name := apply_attr_overrides_not_mem _ hnm
          _ = v := by unfold set_attr; rw [if_pos hk.symm]; exact hv
      · rw [if_neg hk] at h'
        calc apply_attr_overrides obj (hd :: tl) name
            = apply_attr_overrides (set_attr obj hd.1 hd.2) tl name := rfl
          _ = v := ih _ hnd.2 h'

theorem apply_cloning_attrs_not_mem {cloning_attrs : List String} {name : String}
    (self : PyObj α) (obj : PyObj α) (attrs : List (String × α))
    (h : name ∉ cloning_attrs) :
    apply_cloning_attrs self obj cloning_attrs attrs name = obj name := by
  induction cloning_attrs generalizing obj with
  | nil => rfl
  | cons hd tl ih =>
      rw [List.mem_cons] at h
      push_neg at h
      calc apply_cloning_attrs self obj (hd :: tl) attrs name
          = apply_cloning_attrs self
              (if (dict_lookup hd attrs).isSome then obj
                else set_attr obj hd (self hd)) tl attrs name := rfl
        _ = (if (dict_lookup hd attrs).isSome then obj
              else set_attr obj hd (self hd)) name := ih _ h.2
        _ = obj name := by
            by_cases hs : (dict_lookup hd attrs).isSome
            · rw [if_pos hs]
            · rw [if_neg hs]
              unfold set_attr
              rw [if_neg h.1]

theorem apply_cloning_attrs_mem {cloning_attrs : List String} {name : String}
    (self : PyObj α) (obj : PyObj α) (attrs : List (String × α))
    (hmem : name ∈ cloning_attrs) (hnone : dict_lookup name attrs = none) :
    apply_cloning_attrs self obj cloning_attrs attrs name = self name := by
  induction cloning_attrs generalizing obj with
  | nil => cases hmem
  | cons hd tl ih =>
      by_cases htl : name ∈ tl
      · calc apply_cloning_attrs self obj (hd :: tl) attrs name
            = apply_cloning_attrs self
                (if (dict_lookup hd attrs).isSome then obj
                  else set_attr obj hd (self hd)) tl attrs name := rfl
          _ = self name := ih _ htl
      · have hhd : hd = name := by
          rcases List.mem_cons.mp hmem with h | h
          · exact h.symm
          · exact absurd h htl
        subst hhd
        calc apply_cloning_attrs self obj (hd :: tl) attrs hd
            = apply_cloning_attrs self
                (if (dict_lookup hd attrs).isSome then obj
                  else set_attr obj hd (self hd)) tl attrs hd := rfl
          _ = (if (dict_lookup hd attrs).isSome then obj
                else set_attr obj hd (self hd)) hd :=
              apply_cloning_attrs_not_mem _ _ _ htl
          _ = self hd := by
              rw [hnone]
              show set_attr obj hd (self hd) hd = self hd
              unfold set_attr
              rw [if_pos rfl]

/-- Helper: the value the clone ends up with at a given attribute name. -/
theorem clone_attr_value (cls : CloneableClass α) (self : PyObj α)
    (args kwargs attrs : List (String × α)) (name : String)
    (hnd : (attrs.map Prod.fst).Nodup) :
    (dict_lookup name attrs = none → name ∈ cls.cloning_attrs →
      clone_build cls self args kwargs attrs name = self name) ∧
    (∀ v, dict_lookup name attrs = some v →
      clone_build cls self args kwargs attrs name = v) := by
  constructor
  · intro hnone hmem
    unfold clone_build
    rw [apply_attr_overrides_not_mem _ hnone]
    exact apply_cloning_attrs_mem _ _ _ hmem hnone
  · intro v hv
    unfold clone_build
    exact apply_attr_overrides_lookup _ hnd hv

/-- C3: for every `Cloneable` instance `x` (a heap entry) and any override
set, `_clone` returns a new object distinct from `x` without mutating any
attribute of `x` (all pre-existing heap entries are untouched); every
carry-over attribute of `__cloning_attrs__` not named in `attrs` is copied
verbatim from `x` onto the clone, and every attribute named in `attrs` is
applied onto the clone last, so overrides always win. -/
theorem cloneable_clone_spec (α : Type) (heap : List (PyObj α))
    (cls : CloneableClass α) (self_id : Nat) (self : PyObj α)
    (args kwargs attrs : List (String × α))
    (h_self : heap[self_id]? = some self)
    (h_nodup : (attrs.map Prod.fst).Nodup) :
    (clone_alloc heap cls self args kwargs attrs).2 ≠ self_id ∧
    (∀ i, i < heap.length →
      (clone_alloc heap cls self args kwargs attrs).1[i]? = heap[i]?) ∧
    (clone_alloc heap cls self args kwargs attrs).1[
        (clone_alloc heap cls self args kwargs attrs).2]?
      = some (clone_build cls self args kwargs attrs) ∧
    (∀ name, name ∈ cls.cloning_attrs → dict_lookup name attrs = none →
      clone_build cls self args kwargs attrs name = self name) ∧
    (∀ name v, dict_lookup name attrs = some v →
      clone_build cls self args kwargs attrs name = v) := by
  have hlt : self_id < heap.length := by
    rcases List.getElem?_eq_some.mp h_self with ⟨h, _⟩
    exact h
  refine ⟨?_, ?_, ?_, ?_, ?_⟩
  · exact fun h => absurd (h ▸ hlt) (lt_irrefl _)
  · intro i hi
    exact List.getElem?_append_left hi
  · exact List.getElem?_concat_length _ _
  · intro name hmem hnone
    exact (clone_attr_value cls self args kwargs attrs name h_nodup).1 hnone hmem
  · intro name v hv
    exact (clone_attr_value cls self args kwargs attrs name h_nodup).2 v hv

/-- Witness for C3 at a concrete input: heap with one object whose every
attribute is `0`, class with carry-over attributes `x, y`, constructor
returning the all-`7` object, override `x := 5`; the clone sits at the fresh
index `1`, the old entry is untouched, `y` is carried over (`0`) and the
override wins on `x` (`5`). -/
theorem cloneable_clone_spec_witness :
    (clone_alloc [fun _ => (0 : Nat)]
        ⟨[], [], ["x", "y"], none, fun _ _ => fun _ => 7⟩
        (fun _ => 0) [] [] [("x", 5)]).2 ≠ 0 ∧
    (∀ i, i < ([fun _ => (0 : Nat)] : List (PyObj Nat)).length →
      (clone_alloc [fun _ => (0 : Nat)]
        ⟨[], [], ["x", "y"], none, fun _ _ => fun _ => 7⟩
        (fun _ => 0) [] [] [("x", 5)]).1[i]?
        = ([fun _ => (0 : Nat)] : List (PyObj Nat))[i]?) ∧
    (clone_alloc [fun _ => (0 : Nat)]
        ⟨[], [], ["x", "y"], none, fun _ _ => fun _ => 7⟩
        (fun _ => 0) [] [] [("x", 5)]).1[
      (clone_alloc [fun _ => (0 : Nat)]
        ⟨[], [], ["x", "y"], none, fun _ _ => fun _ => 7⟩
        (fun _ => 0) [] [] [("x", 5)]).2]?
      = some (clone_build ⟨[], [], ["x", "y"], none, fun _ _ => fun _ => 7⟩
        (fun _ => 0) [] [] [("x", 5)]) ∧
    (∀ name, name ∈ ["x", "y"] → dict_lookup name [("x", (5 : Nat))] = none →
      clone_build ⟨[], [], ["x", "y"], none, fun _ _ => fun _ => 7⟩
        (fun _ => 0) [] [] [("x", 5)] name = (fun _ => (0 : Nat)) name) ∧
    (∀ name v, dict_lookup name [("x", (5 : Nat))] = some v →
      clone_build ⟨[], [], ["x", "y"], none, fun _ _ => fun _ => 7⟩
        (fun _ => 0) [] [] [("x", 5)] name = v) :=
  cloneable_clone_spec Nat [fun _ => 0]
    ⟨[], [], ["x", "y"], none, fun _ _ => fun _ => 7⟩ 0 (fun _ => 0)
    [] [] [("x", 5)] rfl (by decide)

/-! ## `__init_subclass__` cloning-attrs machinery (C8)

`Cloneable.__init_subclass__` (`src/nodeedge/mixins.py` lines 57-65) runs at
class-definition time and calls `_extend_cloning_attrs` (lines 127-140) then
`_extend_cloning_args` (lines 143-167).  The value a subclass declares for
`__cloning_attrs__` is modelled as a `PyDeclVal`. -/

/-- A Python value a class might declare as `__cloning_attrs__`. -/
inductive PyDeclVal where
  | vfrozenset (xs : List String)
  | vset (xs : List String)
  | vtuple (xs : List String)
  | vlist (xs : List String)
  | vstr (s : String)
  | vdict (keys : List String)
  | vint (n : Int)
  | vnone
  deriving DecidableEq

/-- `frozenset(v)`: succeeds on any iterable — `set`, `frozenset`, `tuple`,
`list`, `str` (iterating yields its characters), `dict` (iterating yields its
keys) — collapsing duplicates; raises builtin `TypeError`
(`"... object is not iterable"`) on a non-iterable such as `int` or `None`. -/
def py_frozenset : PyDeclVal → Except PyExc (List String)
  | .vfrozenset xs => .ok xs.dedup
  | .vset xs => .ok xs.dedup
  | .vtuple xs => .ok xs.dedup
  | .vlist xs => .ok xs.dedup
  | .vstr s => .ok ((s.data.map (fun ch => String.mk [ch])).dedup)
  | .vdict keys => .ok keys.dedup
  | .vint _ => .error .typeError
  | .vnone => .error .typeError

/-- `_extend_cloning_attrs(cls)` (lines 127-140): takes
`frozenset(getattr(cls, "__cloning_attrs__", []))` — which raises `TypeError`
when the declared value is not iterable — and unions in each base's
`__cloning_attrs__` when that is a `tuple`/`set` (first branch) or a
`frozenset` (second branch), then stores the result as a `frozenset`. -/
def extend_cloning_attrs (declared : PyDeclVal) (bases : List PyDeclVal) :
    Except PyExc PyDeclVal := do
  let start ← py_frozenset declared
  let merged := bases.foldl
    (fun acc battr =>
      match battr with
      | .vtuple xs => (acc ++ xs).dedup
      | .vset xs => (acc ++ xs).dedup
      | .vfrozenset xs => (acc ++ xs).dedup
      | _ => acc)
    start
  .ok (.vfrozenset merged)

/-- The guard of `_extend_cloning_args(cls)` (lines 143-145): raises builtin
`TypeError("..._cloning_attrs must be a frozenset or tuple")` unless
`cls.__cloning_attrs__` is a `frozenset` or `tuple`.  (The rest of the
function inspects `cls.__init__`'s signature to fill `__init_args__` /
`__init_kwargs__` and raises nothing.) -/
def extend_cloning_args_check (cloning_attrs_value : PyDeclVal) :
    Except PyExc Unit :=
  match cloning_attrs_value with
  | .vfrozenset _ => .ok ()
  | .vtuple _ => .ok ()
  | _ => .error .typeError

/-- `Cloneable.__init_subclass__` for a subclass with truthy
`__allow_mixin_operation__`: `_extend_cloning_attrs` (which overwrites
`__cloning_attrs__` with a frozenset) followed by `_extend_cloning_args`;
returns the normalized `__cloning_attrs__` value. -/
def cloneable_init_subclass (declared : PyDeclVal) (bases : List PyDeclVal) :
    Except PyExc PyDeclVal := do
  let normalized ← extend_cloning_attrs declared bases
  let _ ← extend_cloning_args_check normalized
  .ok normalized

/-- C8 counterexample: a class declaring `__cloning_attrs__ = 5` (neither a
set nor an ordered sequence of names) fails at class-definition time with
builtin `TypeError`, not with `ConfigurationError` (no such class exists in
the repository); moreover a `dict` declaration — also neither a set nor an
ordered sequence — does not fail at all but is normalized to a frozenset of
its keys. -/
theorem cloneable_init_subclass_counterexample :
    cloneable_init_subclass (.vint 5) [] = .error .typeError ∧
    cloneable_init_subclass (.vint 5) [] ≠ .error .configurationError ∧
    cloneable_init_subclass (.vdict ["a"]) [] = .ok (.vfrozenset ["a"]) := by
  refine ⟨rfl, ?_, rfl⟩
  intro h
  have h2 : Except.error (ε := PyExc) (α := PyDeclVal) PyExc.typeError
      = Except.error PyExc.configurationError := h
  exact PyExc.noConfusion (Except.error.inj h2)

/-- Whether iterating the value succeeds in Python (`frozenset(v)` accepts
exactly the iterables). -/
def py_iterable : PyDeclVal → Bool
  | .vint _ => false
  | .vnone => false
  | _ => true

/-- C8 amended: a type declaring `__cloning_attrs__` as a non-iterable value
fails once, at class-definition time, with builtin `TypeError` (the
repository defines no `ConfigurationError`), and the class is not created;
any iterable declaration — frozenset, set, tuple, list, str or dict alike —
is normalized to a frozenset and accepted. -/
theorem cloneable_init_subclass_typeerror_iff (declared : PyDeclVal)
    (bases : List PyDeclVal) :
    (py_iterable declared = false →
      cloneable_init_subclass declared bases = .error .typeError) ∧
    (py_iterable declared = true →
      ∃ xs, cloneable_init_subclass declared bases = .ok (.vfrozenset xs)) := by
  constructor
  · intro h
    cases declared <;> first | rfl | exact Bool.noConfusion h
  · intro h
    cases declared <;> first | exact ⟨_, rfl⟩ | exact Bool.noConfusion h

/-- Witness for C8 amended at concrete inputs: `__cloning_attrs__ = 0` fails
with `TypeError`; `__cloning_attrs__ = ["a", "b"]` (a list) is accepted. -/
theorem cloneable_init_subclass_typeerror_iff_witness :
    cloneable_init_subclass (.vint 0) [] = .error .typeError ∧
    ∃ xs, cloneable_init_subclass (.vlist ["a", "b"]) [] = .ok (.vfrozenset xs) :=
  ⟨(cloneable_init_subclass_typeerror_iff (.vint 0) []).1 (by decide),
   (cloneable_init_subclass_typeerror_iff (.vlist ["a", "b"]) []).2 (by decide)⟩

/-! ## Pathable (`src/nodeedge/mixins.py` lines 469-562)

A `Pathable` object is a heap entry: its own payload (`item`, the non-path
data such as a `Field`'s type, name and value — exactly what
`model.fields.Field.__eq__` compares) plus the three path attributes
`__current__`, `__backward__`, `__forward__`, each `None` or a reference
(heap index) to another `Pathable`. -/

structure PathData (α : Type) where
  item : α
  current : Option Nat := none
  backward : Option Nat := none
  forward : Option Nat := none
  deriving DecidableEq

/-- `Pathable.has_path`: `bool(self.__forward__ or self.__backward__)`. -/
def has_path (d : PathData α) : Bool :=
  d.forward.isSome || d.backward.isSome

/-- `Pathable.__rshift__(self, other)` (`src/nodeedge/mixins.py` lines
508-526) on the heap: `check_pathable(other)` passes because `other_id`
denotes a `Pathable` heap entry; when `self.__forward__` is set (a `Pathable`
object, hence truthy) the chain is re-rooted (`backward = self`, `current =
self.__forward__`, `forward = other`), otherwise `backward =
self.__backward__`, `current = self`, `forward = other`; the result is
`self._clone(attrs=...)`, i.e. a fresh object carrying `self`'s payload with
the three path attributes overridden, appended at a fresh heap index. -/
def pathable_rshift (heap : List (PathData α)) (self : PathData α)
    (self_id other_id : Nat) : List (PathData α) × Nat :=
  match self.forward with
  | some f =>
      (heap ++ [{ self with
          current := some f, backward := some self_id, forward := some other_id }],
        heap.length)
  | none =>
      (heap ++ [{ self with
          current := some self_id, backward := self.backward,
          forward := some other_id }],
        heap.length)

/-- C4 counterexample: with three fresh leaf `Pathable`s `a, b, c` at heap
indices `0, 1, 2`, `p1 = a >> b` is allocated at index `3` with `current =
a`, `backward = None`, `forward = b`; `p2 = p1 >> c` then has `backward =
p1` (index `3`), not `a` (index `0`) — and the node at index `3` also
differs from `a` as a value, since its path attributes are set — so the
claim's `p2.backward == a` fails for plain `Pathable`s. -/
theorem pathable_rshift_counterexample :
    (pathable_rshift [⟨10, none, none, none⟩, ⟨20, none, none, none⟩,
        ⟨(30 : Nat), none, none, none⟩] ⟨10, none, none, none⟩ 0 1).2 = 3 ∧
    (pathable_rshift [⟨10, none, none, none⟩, ⟨20, none, none, none⟩,
        ⟨(30 : Nat), none, none, none⟩] ⟨10, none, none, none⟩ 0 1).1[3]?
      = some ⟨10, some 0, none, some 1⟩ ∧
    (pathable_rshift
        (pathable_rshift [⟨10, none, none, none⟩, ⟨20, none, none, none⟩,
            ⟨(30 : Nat), none, none, none⟩] ⟨10, none, none, none⟩ 0 1).1
        ⟨10, some 0, none, some 1⟩ 3 2).1[4]?
      = some ⟨10, some 1, some 3, some 2⟩ ∧
    ((⟨10, some 1, some 3, some 2⟩ : PathData Nat).backward = some 3 ∧
      ¬ ((⟨10, some 1, some 3, some 2⟩ : PathData Nat).backward = some 0)) ∧
    (⟨10, some 0, none, some 1⟩ : PathData Nat) ≠ ⟨10, none, none, none⟩ := by
  refine ⟨rfl, rfl, rfl, ⟨rfl, by decide⟩, by decide⟩

/-- C4 amended: for leaves `a, b, c` (heap entries with no path attributes
set), `p1 = a >> b` has `current == a`, `forward == b`, `backward == None`;
`p2 = p1 >> c` re-roots the chain: `p2.current == b`, `p2.forward == c`, and
`p2.backward` is `p1` — a fresh object distinct from `a` but carrying `a`'s
payload (so `p2.backward == a` under `Field.__eq__`'s payload comparison,
not object identity); neither `>>` call mutates any existing object, and on
every node `has_path` is true iff `forward` or `backward` is non-null. -/
theorem pathable_rshift_spec (α : Type) (heap : List (PathData α))
    (ia ib ic : Nat) (A : PathData α)
    (hA : heap[ia]? = some A) (hAf : A.forward = none) (hAb : A.backward = none) :
    (pathable_rshift heap A ia ib).2 = heap.length ∧
    (pathable_rshift heap A ia ib).2 ≠ ia ∧
    (pathable_rshift heap A ia ib).1[(pathable_rshift heap A ia ib).2]?
      = some ⟨A.item, some ia, none, some ib⟩ ∧
    (pathable_rshift (pathable_rshift heap A ia ib).1
        ⟨A.item, some ia, none, some ib⟩ (pathable_rshift heap A ia ib).2 ic).1[
      (pathable_rshift (pathable_rshift heap A ia ib).1
        ⟨A.item, some ia, none, some ib⟩ (pathable_rshift heap A ia ib).2 ic).2]?
      = some ⟨A.item, some ib, some (pathable_rshift heap A ia ib).2, some ic⟩ ∧
    (∀ i, i < heap.length →
      (pathable_rshift (pathable_rshift heap A ia ib).1
        ⟨A.item, some ia, none, some ib⟩ (pathable_rshift heap A ia ib).2 ic).1[i]?
        = heap[i]?) ∧
    (⟨A.item, some ia, none, some ib⟩ : PathData α).item = A.item ∧
    (∀ d : PathData α, has_path d = true ↔ (d.forward ≠ none ∨ d.backward ≠ none)) := by
  have hlt : ia < heap.length := by
    rcases List.getElem?_eq_some.mp hA with ⟨h, _⟩
    exact h
  have hstep1 : pathable_rshift heap A ia ib
      = (heap ++ [⟨A.item, some ia, A.backward, some ib⟩], heap.length) := by
    unfold pathable_rshift
    rw [hAf]
  rw [hstep1, hAb]
  refine ⟨rfl, fun h => absurd (h ▸ hlt) (lt_irrefl _), ?_, ?_, ?_, rfl, ?_⟩
  · exact List.getElem?_concat_length _ _
  · show ((heap ++ [⟨A.item, some ia, none, some ib⟩])
        ++ [⟨A.item, some ib, some heap.length, some ic⟩])[
          (heap ++ [(⟨A.item, some ia, none, some ib⟩ : PathData α)]).length]?
      = some ⟨A.item, some ib, some heap.length, some ic⟩
    exact List.getElem?_concat_length _ _
  · intro i hi
    show ((heap ++ [⟨A.item, some ia, none, some ib⟩])
        ++ [⟨A.item, some ib, some heap.length, some ic⟩])[i]? = heap[i]?
    rw [List.getElem?_append_left (by simp; omega),
      List.getElem?_append_left hi]
  · intro d
    constructor
    · intro h
      rcases Bool.or_eq_true_iff.mp h with h1 | h1
      · exact Or.inl (Option.isSome_iff_ne_none.mp h1)
      · exact Or.inr (Option.isSome_iff_ne_none.mp h1)
    · intro h
      rcases h with h1 | h1
      · exact Bool.or_eq_true_iff.mpr (Or.inl (Option.isSome_iff_ne_none.mpr h1))
      · exact Bool.or_eq_true_iff.mpr (Or.inr (Option.isSome_iff_ne_none.mpr h1))

/-- Witness for C4 amended at a concrete heap of three leaves. -/
theorem pathable_rshift_spec_witness :
    (pathable_rshift [⟨10, none, none, none⟩, ⟨20, none, none, none⟩,
        ⟨(30 : Nat), none, none, none⟩] ⟨10, none, none, none⟩ 0 1).2
      = ([⟨10, none, none, none⟩, ⟨20, none, none, none⟩,
        ⟨(30 : Nat), none, none, none⟩] : List (PathData Nat)).length ∧
    (pathable_rshift [⟨10, none, none, none⟩, ⟨20, none, none, none⟩,
        ⟨(30 : Nat), none, none, none⟩] ⟨10, none, none, none⟩ 0 1).2 ≠ 0 ∧
    (pathable_rshift [⟨10, none, none, none⟩, ⟨20, none, none, none⟩,
        ⟨(30 : Nat), none, none, none⟩] ⟨10, none, none, none⟩ 0 1).1[
      (pathable_rshift [⟨10, none, none, none⟩, ⟨20, none, none, none⟩,
        ⟨(30 : Nat), none, none, none⟩] ⟨10, none, none, none⟩ 0 1).2]?
      = some ⟨10, some 0, none, some 1⟩ ∧
    (pathable_rshift (pathable_rshift [⟨10, none, none, none⟩,
        ⟨20, none, none, none⟩, ⟨(30 : Nat), none, none, none⟩]
        ⟨10, none, none, none⟩ 0 1).1
        ⟨10, some 0, none, some 1⟩
        (pathable_rshift [⟨10, none, none, none⟩, ⟨20, none, none, none⟩,
          ⟨(30 : Nat), none, none, none⟩] ⟨10, none, none, none⟩ 0 1).2 2).1[
      (pathable_rshift (pathable_rshift [⟨10, none, none, none⟩,
        ⟨20, none, none, none⟩, ⟨(30 : Nat), none, none, none⟩]
        ⟨10, none, none, none⟩ 0 1).1
        ⟨10, some 0, none, some 1⟩
        (pathable_rshift [⟨10, none, none, none⟩, ⟨20, none, none, none⟩,
          ⟨(30 : Nat), none, none, none⟩] ⟨10, none, none, none⟩ 0 1).2 2).2]?
      = some ⟨10, some 1,
          some (pathable_rshift [⟨10, none, none, none⟩, ⟨20, none, none, none⟩,
            ⟨(30 : Nat), none, none, none⟩] ⟨10, none, none, none⟩ 0 1).2, some 2⟩ ∧
    (∀ i, i < ([⟨10, none, none, none⟩, ⟨20, none, none, none⟩,
        ⟨(30 : Nat), none, none, none⟩] : List (PathData Nat)).length →
      (pathable_rshift (pathable_rshift [⟨10, none, none, none⟩,
        ⟨20, none, none, none⟩, ⟨(30 : Nat), none, none, none⟩]
        ⟨10, none, none, none⟩ 0 1).1
        ⟨10, some 0, none, some 1⟩
        (pathable_rshift [⟨10, none, none, none⟩, ⟨20, none, none, none⟩,
          ⟨(30 : Nat), none, none, none⟩] ⟨10, none, none, none⟩ 0 1).2 2).1[i]?
        = ([⟨10, none, none, none⟩, ⟨20, none, none, none⟩,
          ⟨(30 : Nat), none, none, none⟩] : List (PathData Nat))[i]?) ∧
    (⟨(10 : Nat), some 0, none, some 1⟩ : PathData Nat).item
      = (⟨10, none, none, none⟩ : PathData Nat).item ∧
    (∀ d : PathData Nat, has_path d = true ↔ (d.forward ≠ none ∨ d.backward ≠ none)) :=
  pathable_rshift_spec Nat
    [⟨10, none, none, none⟩, ⟨20, none, none, none⟩, ⟨30, none, none, none⟩]
    0 1 2 ⟨10, none, none, none⟩ rfl rfl rfl

/-! ## `Pathable.create_path` (C9) -/

/-- A Python value passed as the `current` / `forward` / `backward` argument
of `Pathable.create_path`: `None`, a `Pathable` object (payload `x : α`), or
a non-`Pathable` value such as an `int` or a `str`. -/
inductive PyPathArg (α : Type) where
  | pynone
  | pathable (x : α)
  | pyint (n : Int)
  | pystr (s : String)
  deriving DecidableEq

/-- Python truthiness of the argument: `None` is falsy, a `Pathable` object
is truthy (no `__bool__`/`__len__` override), `int` is truthy iff non-zero,
`str` iff non-empty. -/
def py_truthy : PyPathArg α → Bool
  | .pynone => false
  | .pathable _ => true
  | .pyint n => decide (n ≠ 0)
  | .pystr s => !s.isEmpty

/-- `Pathable.check_pathable(other, direction)` (`src/nodeedge/mixins.py`
lines 502-506): raises `InvalidPathError` unless `other` is a `Pathable`. -/
def check_pathable : PyPathArg α → Except PyExc (PyPathArg α)
  | .pathable x => .ok (.pathable x)
  | _ => .error .invalidPathError

/-- The node `create_path` builds: `obj.__current__`, `obj.__forward__`,
`obj.__backward__` are set to the arguments as given. -/
structure CreatedPath (α : Type) where
  current : PyPathArg α
  forward : PyPathArg α
  backward : PyPathArg α
  deriving DecidableEq

/-- `Pathable.create_path(current, *, forward=None, backward=None)`
(`src/nodeedge/mixins.py` lines 482-500): checks `current`; then checks
`forward` only under `if not forward:` (i.e. when `forward` is falsy), and
likewise `backward`; finally stores the three arguments unchecked on a fresh
node. -/
def create_path (current forward backward : PyPathArg α) :
    Except PyExc (CreatedPath α) := do
  let _ ← check_pathable current
  if !(py_truthy forward) then
    let _ ← check_pathable forward
  if !(py_truthy backward) then
    let _ ← check_pathable backward
  .ok ⟨current, forward, backward⟩

/-- C9 counterexample: `create_path(current, forward=0, backward=b)` — a
non-null, non-`Pathable` `forward` — is not accepted: `0` is falsy, so the
`if not forward:` guard fires and `check_pathable(0)` raises
`InvalidPathError`, against the claim that any non-null non-`Pathable`
value is accepted and stored without check. -/
theorem create_path_counterexample :
    create_path (.pathable (1 : Nat)) (.pyint 0) (.pathable 2)
      = .error .invalidPathError ∧
    ¬ (create_path (.pathable (1 : Nat)) (.pyint 0) (.pathable 2)
      = .ok ⟨.pathable 1, .pyint 0, .pathable 2⟩) := by
  refine ⟨rfl, ?_⟩
  intro h
  have h2 : Except.error (ε := PyExc) (α := CreatedPath Nat) PyExc.invalidPathError
      = Except.ok ⟨.pathable 1, .pyint 0, .pathable 2⟩ := h
  exact Except.noConfusion h2

/-- C9 amended: `create_path` validates `forward` / `backward` only when the
supplied argument is falsy (`None`, `0`, `""`, ...): with both omitted or
passed as `None` it always raises `InvalidPathError`; any truthy value —
`Pathable` or not — is accepted and stored on the new node without any
check, while a falsy `forward` always raises `InvalidPathError`. -/
theorem create_path_spec (α : Type) (x : α) (forward backward : PyPathArg α) :
    (create_path (.pathable x) .pynone .pynone = .error .invalidPathError) ∧
    (py_truthy forward = true → py_truthy backward = true →
      create_path (.pathable x) forward backward
        = .ok ⟨.pathable x, forward, backward⟩) ∧
    (py_truthy forward = false →
      create_path (.pathable x) forward backward = .error .invalidPathError) := by
  refine ⟨rfl, ?_, ?_⟩
  · intro hf hb
    unfold create_path
    simp only [hf, hb]
    rfl
  · intro hf
    unfold create_path
    cases forward with
    | pynone => rfl
    | pathable y => cases hf
    | pyint n => simp only [hf]; rfl
    | pystr s => simp only [hf]; rfl

/-- Witness for C9 amended: `forward = 7` (truthy `int`) and
`backward = "b"` (truthy `str`) are accepted and stored unchecked;
`forward` omitted (None) raises `InvalidPathError`. -/
theorem create_path_spec_witness :
    create_path (.pathable (1 : Nat)) .pynone .pynone = .error .invalidPathError ∧
    create_path (.pathable (1 : Nat)) (.pyint 7) (.pystr "b")
      = .ok ⟨.pathable 1, .pyint 7, .pystr "b"⟩ ∧
    create_path (.pathable (1 : Nat)) (.pystr "") (.pathable 2)
      = .error .invalidPathError :=
  ⟨(create_path_spec Nat 1 .pynone .pynone).1,
   (create_path_spec Nat 1 (.pyint 7) (.pystr "b")).2.1 (by decide) (by decide),
   (create_path_spec Nat 1 (.pystr "") (.pathable 2)).2.2 (by decide)⟩

/-! ## Filterable negation (C5)

`EnumLookupExpression` (`src/nodeedge/query/_lookup.py`) is an `enum.Flag`
with `enum.auto()` members, i.e. distinct powers of two in declaration
order; a flag value is modelled as its `Nat` bit pattern. -/

namespace EnumLookupExpression

def NOT : Nat := 1
def EQUAL : Nat := 2
def IN : Nat := 4
def GE : Nat := 8
def GT : Nat := 16
def LE : Nat := 32
def LT : Nat := 64
def EXISTS : Nat := 128
def LIKE : Nat := 256
def ILIKE : Nat := 512

/-- `EnumLookupExpression.allowed_negate_expr()` (`_lookup.py` lines 22-30):
the tuple `(EQUAL, IN, EXISTS, LIKE, ILIKE)`. -/
def allowed_negate_expr : List Nat := [EQUAL, IN, EXISTS, LIKE, ILIKE]

end EnumLookupExpression

/-- The attribute names `EnumLookupExpression` actually defines: its ten
members, the methods and properties of its class body in
`src/nodeedge/query/_lookup.py`, and the methods contributed by the
`nodeedge.types` enum mixins (`FindableEnum.find_member`,
`JsonableEnum.as_jsonable_value`).  The stdlib `enum.Flag` machinery adds no
domain method.  Note `can_negate_expr` is NOT among them. -/
def enum_lookup_expression_attr_names : List String :=
  ["NOT", "EQUAL", "IN", "GE", "GT", "LE", "LT", "EXISTS", "LIKE", "ILIKE",
   "allowed_negate_expr", "is_negate_expr", "is_func_lookup", "is_in_lookup",
   "is_equal_lookup", "can_jsonable_as_value", "can_subquery_as_value",
   "find_member", "as_jsonable_value"]

/-- Modelled from the spec: the check that `can_negate_expr` was intended to
perform — membership of the current lookup in `allowed_negate_expr()`.  No
method of this name exists anywhere in the repository (only the classmethod
`allowed_negate_expr` above), so `filterable_invert` never reaches this
function. -/
def can_negate_expr (lookup : Nat) : Bool :=
  EnumLookupExpression.allowed_negate_expr.contains lookup

/-- `Filterable.__invert__` (`src/nodeedge/mixins.py` lines 583-587), which
`not_()` and the `~` operator delegate to: it evaluates
`self.__lookup__.can_negate_expr()` — an attribute access on the
`EnumLookupExpression` flag value, which raises `AttributeError` since the
class defines no such attribute; had the attribute existed, a falsy result
would raise `TypeError(f"Cannot negate ...")` and otherwise the clone would
receive `self.__lookup__ | EnumLookupExpression.NOT`. -/
def filterable_invert (lookup : Nat) : Except PyExc Nat :=
  if enum_lookup_expression_attr_names.contains "can_negate_expr" then
    if !(can_negate_expr lookup) then .error .typeError
    else .ok (lookup ||| EnumLookupExpression.NOT)
  else .error .attributeError

/-- C5: the claim says `not_()` returns a clone with the NOT bit OR'd in for
the allow-listed lookups {EQUAL, IN, EXISTS, LIKE, ILIKE} (so
`field.equal(5).not_()` and `field.exists().not_()` succeed) and raises
`TypeError` otherwise.  In fact every `not_()` call — `field.equal(5)`
leaves `__lookup__ = EQUAL`, `field.exists()` leaves `__lookup__ = EXISTS` —
raises `AttributeError`, because `Filterable.__invert__` calls the
nonexistent method `can_negate_expr` (the source only defines the classmethod
`allowed_negate_expr` listing exactly those five lookups, which is the
evident intent). -/
theorem filterable_invert_always_attribute_error :
    filterable_invert EnumLookupExpression.EQUAL = .error .attributeError ∧
    filterable_invert EnumLookupExpression.EXISTS = .error .attributeError ∧
    (∀ lookup : Nat, filterable_invert lookup = .error .attributeError) ∧
    enum_lookup_expression_attr_names.contains "can_negate_expr" = false ∧
    enum_lookup_expression_attr_names.contains "allowed_negate_expr" = true := by
  refine ⟨rfl, rfl, fun _ => rfl, by decide, by decide⟩

/-! ## BaseField jsonable/python values (C10)

`src/nodeedge/model/_fields/base_fields.py`: `PythonValueFieldMixin` stores
`_python_value`, class-defaulted to the `...` sentinel (here `none`); a
populated value (which may itself be Python `None`) is `some v`. -/

/-- A `BaseField` instance as far as `_python_value` is concerned. -/
structure BaseField (α : Type) where
  python_value : Option α
  deriving DecidableEq

/-- `PythonValueFieldMixin.as_python_value` (lines 57-63): returns `self`
(the field itself — the return-self fallback) when `_python_value is ...`,
else the stored python value. -/
def as_python_value (f : BaseField α) : BaseField α ⊕ α :=
  match f.python_value with
  | none => .inl f
  | some v => .inr v

/-- `BaseField.as_jsonable_value` (lines 110-113): raises
`ValueError(f"value is not set: {self}")` when `_python_value is ...`, else
`json.dumps(self.as_python_value())`.  `dumps` is the JSON encoder applied
to a populated python value, `dumps_field` what `json.dumps` would do to the
field object itself (that branch is unreachable once the guard has passed). -/
def as_jsonable_value (f : BaseField α) (dumps : α → String)
    (dumps_field : BaseField α → String) : Except PyExc String :=
  match f.python_value with
  | none => .error .valueError
  | some _ =>
      .ok (match as_python_value f with
        | .inl s => dumps_field s
        | .inr v => dumps v)

/-- C10: for every `BaseField` whose python value was never populated,
`as_jsonable_value()` raises `ValueError` ("value is not set") — while
`as_python_value()` applies the return-self fallback instead of raising;
for every `BaseField` whose python value is populated, `as_jsonable_value()`
returns the JSON encoding of that python value and raises no error. -/
theorem as_jsonable_value_spec (α : Type) (f : BaseField α)
    (dumps : α → String) (dumps_field : BaseField α → String) :
    (f.python_value = none →
      as_jsonable_value f dumps dumps_field = .error .valueError ∧
      as_python_value f = .inl f) ∧
    (∀ v, f.python_value = some v →
      as_jsonable_value f dumps dumps_field = .ok (dumps v)) := by
  constructor
  · intro h
    unfold as_jsonable_value as_python_value
    rw [h]
    exact ⟨rfl, rfl⟩
  · intro v h
    unfold as_jsonable_value as_python_value
    rw [h]

/-- Witness for C10: an unpopulated `Nat` field raises `ValueError` while
`as_python_value` returns the field itself; a field populated with `5`
JSON-encodes to `"5"` under `toString`. -/
theorem as_jsonable_value_spec_witness :
    (as_jsonable_value (⟨none⟩ : BaseField Nat) toString (fun _ => "field")
        = .error .valueError ∧
      as_python_value (⟨none⟩ : BaseField Nat) = .inl ⟨none⟩) ∧
    as_jsonable_value (⟨some 5⟩ : BaseField Nat) toString (fun _ => "field")
      = .ok (toString 5) :=
  ⟨(as_jsonable_value_spec Nat ⟨none⟩ toString (fun _ => "field")).1 rfl,
   (as_jsonable_value_spec Nat ⟨some 5⟩ toString (fun _ => "field")).2 5 rfl⟩

/-! ## BigInt (C6)

`BigInt` (`src/nodeedge/model/_fields/field_types.py` lines 151-172) is a
`ConstrainedStr` field whose `validate` matches the literal against
`((?P<value>[0-9]+)(e\+(?P<exponent>[0-9]+))?)n` (fullmatch) and stores
`int(float(f"{value}e{exponent}"))` as `_python_value`; `as_jsonable_value`
is `json.dumps(self)` — the JSON encoding of the original text. -/

/-- Accumulate a maximal run of leading decimal digits. -/
def take_digits_go : List Char → Nat → Nat × List Char
  | [], acc => (acc, [])
  | c :: rest, acc =>
      if c.isDigit then take_digits_go rest (acc * 10 + (c.toNat - 48))
      else (acc, c :: rest)

/-- `[0-9]+`: one or more leading digits (greedy), with the remainder. -/
def take_digits (cs : List Char) : Option (Nat × List Char) :=
  match cs with
  | [] => none
  | c :: rest =>
      if c.isDigit then some (take_digits_go rest (c.toNat - 48))
      else none

/-- `BigInt.regex.fullmatch(value)`: digits, optionally `e+` digits, then a
final `n`; yields the `value` and `exponent` groups (`exponent` 0 when the
group is absent, per the `int(_v) if _v else 0` conversion). -/
def big_int_match (s : String) : Option (Nat × Nat) :=
  match take_digits s.data with
  | none => none
  | some (v, rest) =>
      match rest with
      | ['n'] => some (v, 0)
      | 'e' :: '+' :: rest2 =>
          match take_digits rest2 with
          | some (e, rest3) => if rest3 = ['n'] then some (v, e) else none
          | none => none
      | _ => none

/-- Bit length with explicit fuel (structural recursion the kernel can
evaluate); 1100 iterations cover every value below the IEEE-754 double
overflow threshold `2^1024`. -/
def bit_len_go : Nat → Nat → Nat
  | 0, _ => 0
  | fuel + 1, n => if n = 0 then 0 else bit_len_go fuel (n / 2) + 1

def bit_len (n : Nat) : Nat := bit_len_go 1100 n

/-- Rounding a non-negative integer to the nearest IEEE-754 double
(binary64: 53 significant bits, round half to even), returned as the exact
integer value of that double.  This is what `float(<decimal integer text>)`
computes (CPython parses decimal floats correctly rounded) and what `int()`
then recovers exactly. -/
def double_round (n : Nat) : Nat :=
  if n < 2 ^ 53 then n
  else
    let k := bit_len n - 53
    let q := n / 2 ^ k
    let r := n % 2 ^ k
    let half := 2 ^ (k - 1)
    let q1 := if r > half ∨ (r = half ∧ q % 2 = 1) then q + 1 else q
    q1 * 2 ^ k

/-- `int(float(f"{v}e{e}"))` for the non-negative integer `v * 10^e`: the
nearest double, or `None` for infinity (`float` overflows to `inf` at
`2^1024` and `int(inf)` raises `OverflowError`). -/
def int_of_float_decimal (n : Nat) : Option Nat :=
  let r := double_round n
  if r < 2 ^ 1024 then some r else none

/-- Lowercase hex digit, as `json.dumps` emits in `\uXXXX` escapes. -/
def hex_digit (n : Nat) : Char :=
  if n < 10 then Char.ofNat (48 + n) else Char.ofNat (87 + n)

def u_escape (n : Nat) : List Char :=
  ['\\', 'u', hex_digit (n / 4096 % 16), hex_digit (n / 256 % 16),
   hex_digit (n / 16 % 16), hex_digit (n % 16)]

/-- One character of `json.dumps` on a `str` (default `ensure_ascii=True`):
`"` and `\` and the common controls get two-character escapes, other
controls and non-ASCII get `\uXXXX` (astral characters, above `0xFFFF`,
would become surrogate pairs in CPython; the literals here are ASCII). -/
def json_escape_char (c : Char) : List Char :=
  if c = '"' then ['\\', '"']
  else if c = '\\' then ['\\', '\\']
  else if c = '\n' then ['\\', 'n']
  else if c = '\t' then ['\\', 't']
  else if c = '\r' then ['\\', 'r']
  else if c.toNat = 8 then ['\\', 'b']
  else if c.toNat = 12 then ['\\', 'f']
  else if c.toNat < 32 ∨ c.toNat > 126 then u_escape c.toNat
  else [c]

/-- `json.dumps` on a Python `str`. -/
def json_dumps_str (s : String) : String :=
  String.mk ('"' :: (s.data.flatMap json_escape_char ++ ['"']))

/-- The `BigInt` field `validate` returns: the string value itself (a `str`
subclass holding the original text) with `_python_value` populated. -/
structure BigIntField where
  text : String
  python_value : Nat
  deriving DecidableEq

/-- `BigInt.validate(value)`: `ValueError("invalid BigInt format")` when the
regex does not fullmatch, else the field with
`_python_value = int(float(f"{value}e{exponent}"))`. -/
def big_int_validate (s : String) : Except PyExc BigIntField :=
  match big_int_match s with
  | none => .error .valueError
  | some (v, e) =>
      match int_of_float_decimal (v * 10 ^ e) with
      | some pv => .ok ⟨s, pv⟩
      | none => .error .overflowError

/-- `BigInt.as_jsonable_value`: `json.dumps(self)` — `self` is the `str`
subclass holding the original literal text. -/
def big_int_as_jsonable_value (f : BigIntField) : String :=
  json_dumps_str f.text

/-- C6 counterexample: `BigInt.validate("1e+100n")` succeeds, but the
resulting `_python_value` is `int(float("1e100"))` — the nearest IEEE-754
double to `10^100` — which is NOT the exact integer `10^100` (whose 333-bit
mantissa cannot be represented in 53 bits). -/
theorem big_int_python_value_counterexample :
    (big_int_validate "1e+100n").map (fun f => f.python_value)
      = .ok (double_round (10 ^ 100)) ∧
    (big_int_validate "1e+100n").map (fun f => f.python_value)
      ≠ .ok (10 ^ 100) ∧
    double_round (10 ^ 100) ≠ 10 ^ 100 := by
  refine ⟨rfl, ?_, ?_⟩ <;> decide

/-- C6 amended: `BigInt.validate("1e+100n")` succeeds; on the resulting
field `as_python_value()` equals `int(float("1e100"))` — the exact integer
value of the IEEE-754 double nearest to `10^100`, not `10^100` itself,
because the conversion goes through binary floating point — and
`as_jsonable_value()` is the JSON encoding of the original literal text,
`json.dumps("1e+100n") = "\x221e+100n\x22"`, not the expanded integer. -/
theorem big_int_validate_spec :
    big_int_validate "1e+100n" = .ok ⟨"1e+100n", double_round (10 ^ 100)⟩ ∧
    big_int_as_jsonable_value ⟨"1e+100n", double_round (10 ^ 100)⟩
      = "\"1e+100n\"" ∧
    double_round (10 ^ 100) ≠ 10 ^ 100 := by
  refine ⟨?_, ?_, ?_⟩ <;> decide

/-! ## Relative durations (C7)

`src/nodeedge/utils/datetime.py`: `PATTERN_RELATIVE_DURATION` is the
anchored alternation `(PT0S) | (P(yY)?(mM)?(dD)? T(hH)?(mM)?
((-?digits)(.digits)?S)?)` (the `T` is literal and mandatory in the second
branch), and `parse_relative_duration` / `format_relative_duration` convert
between the text and `{months, days, microseconds}`. -/

/-- One optional `((digits)tag)?` group: consumes `digits tag` when the
maximal leading digit run is followed by exactly `tag`, else matches empty
and leaves the input unchanged (the regex can only place a digit run inside
a group whose tag letter immediately follows it). -/
def try_group (tag : Char) (cs : List Char) : Option Nat × List Char :=
  match take_digits cs with
  | none => (none, cs)
  | some (n, rest) =>
      match rest with
      | t :: r2 => if t = tag then (some n, r2) else (none, cs)
      | [] => (none, cs)

/-- Tail of the seconds group after its (signed) integer part:
`([\.](?P<msec>[0-9]+))?S`. -/
def sec_group_tail (s : Int) (rest : List Char) :
    Option ((Int × Option Nat) × List Char) :=
  match rest with
  | '.' :: r3 =>
      (match take_digits r3 with
       | some (ms, rest4) =>
           match rest4 with
           | 'S' :: r4 => some ((s, some ms), r4)
           | _ => none
       | none => none)
  | 'S' :: r3 => some ((s, none), r3)
  | _ => none

/-- The optional seconds group `((?P<sec>[\-]?[0-9]+)([\.](?P<msec>
[0-9]+))?S)?`: on a full group match yields `sec` (as a Python `int`, so
`-0` is `0`) and the optional `msec` digits; otherwise matches empty. -/
def try_sec_group (cs : List Char) : (Option Int × Option Nat) × List Char :=
  let attempt : Option ((Int × Option Nat) × List Char) :=
    match cs with
    | '-' :: rest =>
        (match take_digits rest with
         | some (n, rest2) => sec_group_tail (-(n : Int)) rest2
         | none => none)
    | _ =>
        (match take_digits cs with
         | some (n, rest2) => sec_group_tail (n : Int) rest2
         | none => none)
  match attempt with
  | some ((s, ms), rest) => ((some s, ms), rest)
  | none => ((none, none), cs)

/-- The named groups of `PATTERN_RELATIVE_DURATION` (`None` = group did not
participate). -/
structure RelDurationGroups where
  year : Option Nat
  month : Option Nat
  day : Option Nat
  hour : Option Nat
  minute : Option Nat
  sec : Option Int
  msec : Option Nat
  deriving DecidableEq

/-- `any(result.values())`: all named groups are non-empty strings when
matched, so truthiness is participation. -/
def groups_any (g : RelDurationGroups) : Bool :=
  g.year.isSome || g.month.isSome || g.day.isSome || g.hour.isSome ||
    g.minute.isSome || g.sec.isSome || g.msec.isSome

/-- `PATTERN_RELATIVE_DURATION.fullmatch(value)`: the first alternative
`(PT0S)` (named groups all `None`), else the dated form `P` date-groups `T`
time-groups, anchored at both ends. -/
def rel_duration_fullmatch (s : String) : Option RelDurationGroups :=
  if s = "PT0S" then some ⟨none, none, none, none, none, none, none⟩
  else
    match s.data with
    | 'P' :: cs =>
        let (y, cs1) := try_group 'Y' cs
        let (mo, cs2) := try_group 'M' cs1
        let (d, cs3) := try_group 'D' cs2
        (match cs3 with
         | 'T' :: cs4 =>
             let (h, cs5) := try_group 'H' cs4
             let (mi, cs6) := try_group 'M' cs5
             let ((sec, ms), cs7) := try_sec_group cs6
             if cs7 = [] then some ⟨y, mo, d, h, mi, sec, ms⟩ else none
         | _ => none)
    | _ => none

/-- `RelativeDurationUnit`: the `{months, days, microseconds}` TypedDict. -/
structure RelativeDurationUnit where
  months : Int
  days : Int
  microseconds : Int
  deriving DecidableEq

/-- The conversion block of `parse_relative_duration` (lines 115-131):
all groups `None` gives zeros; otherwise each group is `int(_v) if _v else
0`, `sign = -1 if sec < 0 else 1`, `months = year*12 + month`, `days = day`,
`microseconds = hour*3600000000 + minute*60000000 +
(abs(sec)*1000000 + msec)*sign`. -/
def convert_rel_groups (g : RelDurationGroups) : RelativeDurationUnit :=
  if !(groups_any g) then ⟨0, 0, 0⟩
  else
    let year : Int := g.year.getD 0
    let month : Int := g.month.getD 0
    let day : Int := g.day.getD 0
    let hour : Int := g.hour.getD 0
    let minute : Int := g.minute.getD 0
    let sec : Int := g.sec.getD 0
    let msec : Int := g.msec.getD 0
    let sign : Int := if sec < 0 then -1 else 1
    ⟨year * 12 + month, day,
      hour * 3600000000 + minute * 60000000 +
        ((sec.natAbs : Int) * 1000000 + msec) * sign⟩

/-- `parse_relative_duration` (lines 110-132): `ValueError("invalid
RelativeDuration format")` when the pattern does not fullmatch. -/
def parse_relative_duration (s : String) : Except PyExc RelativeDurationUnit :=
  match rel_duration_fullmatch s with
  | none => .error .valueError
  | some g => .ok (convert_rel_groups g)

/-- `format_date_duration` (lines 201-225), with Python's floor `//` and `%`
(`Int.fdiv` / `Int.emod`); the walrus `if year := ...:` conditions are
truthiness, i.e. non-zero. -/
def format_date_duration (months days : Int) (only_body : Bool) : String :=
  if months = 0 ∧ days = 0 then (if only_body then "" else "P0D")
  else
    let year := months.fdiv 12
    let month := months.emod 12
    let parts1 := if year ≠ 0 then [toString year ++ "Y"] else []
    let parts2 := if month ≠ 0 then [toString month ++ "M"] else []
    let parts3 := if days ≠ 0 then [toString days ++ "D"] else []
    let date_part := String.join (parts1 ++ parts2 ++ parts3)
    if date_part = "" then (if only_body then "" else "P0D")
    else if only_body then date_part
    else "P" ++ date_part

/-- `format_relative_duration` (lines 135-165): zeros give `"PT0S"`;
otherwise the date body, then the time units computed from
`abs(microseconds)` — hour and minute omitted when zero, the seconds
component always emitted (with the sign restored and `.{leftover}` appended
when sub-second microseconds remain) — wrapped as `P{date}T{units}S`. -/
def format_relative_duration (months days microseconds : Int) : String :=
  if months = 0 ∧ days = 0 ∧ microseconds = 0 then "PT0S"
  else
    let date_part := format_date_duration months days true
    let is_negative := microseconds < 0
    let us0 : Nat := microseconds.natAbs
    let hour := us0 / 3600000000
    let units1 := if hour ≠ 0 then [toString hour ++ "H"] else []
    let us1 := us0 - hour * 3600000000
    let minute := us1 / 60000000
    let units2 := if minute ≠ 0 then [toString minute ++ "M"] else []
    let us2 := us1 - minute * 60000000
    let second : Nat := us2 / 1000000
    let us3 := us2 % 1000000
    let second_signed : Int := if is_negative then -(second : Int) else (second : Int)
    let units3 := if us3 ≠ 0 then [toString second_signed ++ "." ++ toString us3]
                  else [toString second_signed]
    "P" ++ date_part ++ "T" ++ String.join (units1 ++ units2 ++ units3) ++ "S"

/-- C7 counterexample: at `months=15, days=34, microseconds=0` — no time
components present — the formatter returns `"P1Y3M34DT0S"`, which contains a
`T` section (`T0S`), refuting the claim that the formatter omits the `T`
section entirely when no time components are present (the claim's own
example output already contains it). -/
theorem format_relative_duration_counterexample :
    format_relative_duration 15 34 0 = "P1Y3M34DT0S" ∧
    format_relative_duration 15 34 0 ≠ "P1Y3M34D" ∧
    'T' ∈ (format_relative_duration 15 34 0).data := by
  refine ⟨by decide, by decide, by decide⟩

/-- C7 amended: `parse_relative_duration("P1Y3M34DT0S")` yields
`months=15, days=34, microseconds=0`, and
`format_relative_duration(15, 34, 0)` returns `"P1Y3M34DT0S"` — the exact
round trip of the example; the formatter omits zero date components and zero
hour/minute components but always emits the seconds component and the `T`
section (as `T0S` when no time components are present), for every input. -/
theorem relative_duration_round_trip :
    parse_relative_duration "P1Y3M34DT0S" = .ok ⟨15, 34, 0⟩ ∧
    format_relative_duration 15 34 0 = "P1Y3M34DT0S" ∧
    parse_relative_duration (format_relative_duration 15 34 0) = .ok ⟨15, 34, 0⟩ ∧
    (∀ m d us : Int, 'T' ∈ (format_relative_duration m d us).data) := by
  refine ⟨by decide, by decide, by decide, ?_⟩
  intro m d us
  unfold format_relative_duration
  by_cases h : m = 0 ∧ d = 0 ∧ us = 0
  · rw [if_pos h]; decide
  · rw [if_neg h]
    simp [String.data_append, List.mem_append]
